import Mathlib

/-!
Shallow embedding of src/dotnet_fix.py (an NVDA global plugin that
synthesizes names for unlabeled .NET controls) and verification of the
specification's claims about it.

Modelling conventions, used consistently below:
* A Python attribute that is absent, is None, or whose read raises, is
  modelled as `none` of an `Option` type.  The source handles "raises"
  and "absent" through the same fallback branches (try/except around
  getattr with a None/empty default), so conflating them is faithful to
  every observable result.
* `children` that are absent behave exactly like an empty sequence in the
  source (`for n in nodes or []`, `visit(getattr(obj, "children", None), ...)`),
  so the element tree stores a (possibly empty) child list directly.
* Python string truthiness (`if s:`) is `pyTruthy`; `str.strip`, `str.upper`,
  `in`, `startswith`, `len` and `" ".join` are given list-of-characters
  implementations (`pyStrip`, `pyUpper`, ...) so that all definitions
  evaluate inside the kernel.
* The host enumerations `controlTypes.Role` / `controlTypes.State` are
  modelled as inductive types carrying exactly the symbolic names the
  source resolves, plus an `other` constructor for all remaining host
  values.  The source's `_build_role_set` resolves every listed name on a
  host that defines them all, so the three role sets are literal lists.
-/

/-- Host role enumeration: the symbols resolved by the source plus all other
host roles. -/

inductive Role where
  | BUTTON
  | TOGGLEBUTTON
  | LINK
  | MENUITEM
  | TAB
  | TABITEM
  | CHECKBOX
  | RADIOBUTTON
  | PANE
  | STATIC_TEXT
  | GROUPING
  | LISTITEM
  | TREEVIEWITEM
  | other (n : Nat)
deriving DecidableEq

/-- Host state enumeration: the only state the source consults plus all other
host states. -/
inductive State where
  | FOCUSABLE
  | other (n : Nat)
deriving DecidableEq

/-- Source lines 26-37: roles that are commonly interactive by design. -/
def ALWAYS_CANDIDATE_ROLES : List Role :=
  [Role.BUTTON, Role.TOGGLEBUTTON, Role.LINK, Role.MENUITEM, Role.TAB,
   Role.TABITEM, Role.CHECKBOX, Role.RADIOBUTTON]

/-- Source lines 40-46: roles considered only when tabbable/focusable. -/
def FOCUSABLE_CANDIDATE_ROLES : List Role :=
  [Role.PANE, Role.STATIC_TEXT, Role.GROUPING]

/-- Source lines 50-55: item roles that may expose class-like names. -/
def ITEM_ROLES : List Role :=
  [Role.LISTITEM, Role.TREEVIEWITEM]

/-- The opaque UIA framework-identification handle (source line 82:
obj.UIAElement), with the four attribute spellings probed at lines 86-91. -/
structure UIAFrameworkHandle where
  cachedFrameworkID : Option String
  cachedFrameworkId : Option String
  CurrentFrameworkId : Option String
  currentFrameworkId : Option String

mutual
/-- A snapshot of a host accessibility-tree element with every attribute the
source consumes.  `none` models an absent attribute or a raising accessor. -/
inductive UIElement where
  | mk (name : Option String) (value : Option String) (description : Option String)
       (role : Option Role) (states : Option (List State))
       (uiaElement : Option UIAFrameworkHandle) (windowClassName : Option String)
       (children : UIElementList)
inductive UIElementList where
  | nil
  | cons (hd : UIElement) (tl : UIElementList)
end

def UIElement.name : UIElement → Option String
  | UIElement.mk nm _ _ _ _ _ _ _ => nm

def UIElement.value : UIElement → Option String
  | UIElement.mk _ v _ _ _ _ _ _ => v

def UIElement.description : UIElement → Option String
  | UIElement.mk _ _ d _ _ _ _ _ => d

def UIElement.role : UIElement → Option Role
  | UIElement.mk _ _ _ r _ _ _ _ => r

def UIElement.states : UIElement → Option (List State)
  | UIElement.mk _ _ _ _ s _ _ _ => s

def UIElement.uiaElement : UIElement → Option UIAFrameworkHandle
  | UIElement.mk _ _ _ _ _ u _ _ => u

def UIElement.windowClassName : UIElement → Option String
  | UIElement.mk _ _ _ _ _ _ w _ => w

def UIElement.children : UIElement → UIElementList
  | UIElement.mk _ _ _ _ _ _ _ cs => cs

/-- Python truthiness of an optional string: false for None and "". -/
def pyTruthy : Option String → Bool
  | some s => s ≠ ""
  | none => false

/-- Python `a or b` on optional strings. -/
def pyOr (a b : Option String) : Option String :=
  if pyTruthy a then a else b

/-- Python `str.strip()`: drop leading and trailing whitespace. -/
def pyStrip (s : String) : String :=
  String.mk (((s.data.dropWhile Char.isWhitespace).reverse.dropWhile Char.isWhitespace).reverse)

/-- Python `str.upper()` for the ASCII framework identifiers involved. -/
def pyUpper (s : String) : String :=
  String.mk (s.data.map Char.toUpper)

/-- Python `c in s` for a single-character needle. -/
def pyContainsChar (s : String) (c : Char) : Bool :=
  s.data.contains c

/-- Python `s.startswith(p)`. -/
def pyStartsWith (s p : String) : Bool :=
  p.data.isPrefixOf s.data

/-- Python `len(s)`. -/
def pyLen (s : String) : Nat :=
  s.data.length

/-- Python `" ".join(pieces)`. -/
def pyJoinSpace : List String → String
  | [] => ""
  | [s] => s
  | s :: rest => s ++ " " ++ pyJoinSpace rest

/-- Source lines 58-73, `_isClassyName(name)`: detect names that look like
type/namespace identifiers.  `none` models a non-string argument. -/
def isClassyName : Option String → Bool
  | none => false
  | some raw =>
    if pyStrip raw = "" then false
    else if pyContainsChar (pyStrip raw) ' ' then false
    else if pyContainsChar (pyStrip raw) '.' ∧ 8 ≤ pyLen (pyStrip raw) then true
    else false

/-- The four attribute spellings probed at source lines 86-91, in order. -/
def frameworkAttrProbe (el : UIAFrameworkHandle) : List (Option String) :=
  [el.cachedFrameworkID, el.cachedFrameworkId, el.CurrentFrameworkId,
   el.currentFrameworkId]

/-- The source's probe loop (lines 86-93): first truthy value wins. -/
def firstTruthyAttr : List (Option String) → Option String
  | [] => none
  | a :: rest => if pyTruthy a then a else firstTruthyAttr rest

/-- Source lines 76-100, `_getUIAFrameworkId(obj)`: the first truthy framework
attribute, uppercased; empty string when the handle is absent/falsy or no
attribute is truthy. -/
def getUIAFrameworkId (obj : UIElement) : String :=
  match obj.uiaElement with
  | none => ""
  | some el =>
    match firstTruthyAttr (frameworkAttrProbe el) with
    | some fw => pyUpper fw
    | none => ""

/-- The fixed framework-identifier set of source line 110. -/
def FRAMEWORK_IDS : List String :=
  ["WPF", "XAML", "WINFORM", "WINFORMS", "MAUI"]

/-- Source lines 103-121, `_isDotNetUI(obj)`: UIA framework id in the fixed
set, else the legacy WinForms window-class prefix check (an absent or raising
windowClassName reads as ""). -/
def isDotNetUI (obj : UIElement) : Bool :=
  if FRAMEWORK_IDS.contains (getUIAFrameworkId obj) then true
  else pyStartsWith (obj.windowClassName.getD "") "WindowsForms10."

/-- Source lines 138-144 (the body of `visit` that turns one node's
attributes into at most one fragment): prefer `name` when truthy, else
`value or description`; keep the stripped text iff non-empty. -/
def fragmentText (nm v d : Option String) : Option String :=
  match (if pyTruthy nm then nm else pyOr v d) with
  | some s => if pyStrip s = "" then none else some (pyStrip s)
  | none => none

/-- Appending the fragment (if any) of a node with the given attributes,
as `out.append(t.strip())` at source line 144. -/
def appendFragment (out : List String) (nm v d : Option String) : List String :=
  match fragmentText nm v d with
  | some s => out ++ [s]
  | none => out

/-- Source lines 131-148, the recursive `visit(nodes, depth)` of
`_gatherTextFromChildren`, with the mutated local list `out` threaded
explicitly.  The callee's entry guard (line 133: return when depth went
negative or the item cap is reached) is inlined at the recursion into a
node's children; the per-node cap check is line 136's break. -/
def visit (maxItems : Nat) (nodes : UIElementList) (depth : Int)
    (out : List String) : List String :=
  match nodes with
  | UIElementList.nil => out
  | UIElementList.cons (UIElement.mk nm v d _ _ _ _ cs) rest =>
      if maxItems ≤ out.length then out
      else
        visit maxItems rest depth
          (if depth - 1 < 0 ∨ maxItems ≤ (appendFragment out nm v d).length
           then appendFragment out nm v d
           else visit maxItems cs (depth - 1) (appendFragment out nm v d))

/-- Source lines 124-155, `_gatherTextFromChildren(obj, maxDepth, maxItems)`:
the top-level call `visit(obj.children, maxDepth)` with its entry guard. -/
def gatherTextFromChildren (obj : UIElement) (maxDepth : Int) (maxItems : Nat) :
    List String :=
  if maxDepth < 0 ∨ maxItems ≤ 0 then []
  else visit maxItems obj.children maxDepth []

/-- `_gatherTextFromChildren(obj)` at the default bounds maxDepth=3,
maxItems=10 (as called from `_get_name`, lines 174 and 201). -/
def gatherTextDefault (obj : UIElement) : List String :=
  gatherTextFromChildren obj 3 10

/-- Membership test `role in roleSet` where `role` may be None/unreadable. -/
def optRoleMem (role : Option Role) (roles : List Role) : Bool :=
  match role with
  | some r => roles.contains r
  | none => false

/-- Source lines 164-205, `UnlabeledDotNetNameOverlay._get_name`.
`original` is the name produced by the delegated `super()._get_name()`
call (line 166).  A raising `self.role` read is `none`: in the non-empty
branch the source sets role to None (lines 169-172, so the ITEM_ROLES
test fails), in the empty branch it returns `original` (lines 180-183);
a raising/absent `states` read is the empty set (lines 189-192). -/
def UnlabeledDotNetNameOverlay_get_name (self : UIElement)
    (original : Option String) : Option String :=
  if pyTruthy original then
    if optRoleMem self.role ITEM_ROLES && isDotNetUI self && isClassyName original then
      if gatherTextDefault self ≠ [] then some (pyJoinSpace (gatherTextDefault self))
      else original
    else original
  else
    match self.role with
    | none => original
    | some role =>
      if !isDotNetUI self then original
      else if !(ALWAYS_CANDIDATE_ROLES.contains role) &&
              !(FOCUSABLE_CANDIDATE_ROLES.contains role &&
                (self.states.getD []).contains State.FOCUSABLE) then original
      else if gatherTextDefault self ≠ [] then some (pyJoinSpace (gatherTextDefault self))
      else original

/-- A behavior class in the host's overlay-class list: the source's overlay
class, or any other host/addon class. -/
inductive OverlayClass where
  | UnlabeledDotNetNameOverlay
  | hostClass (n : Nat)
deriving DecidableEq

/-- Source lines 211-251, `GlobalPlugin.chooseNVDAObjectOverlayClasses`.
The source mutates `clsList` (at most one `insert(0, ...)`); the model
returns the resulting list.  A raising `obj.role` read returns with no
insertion (lines 216-219); a raising/absent `states` read is the empty
set (lines 221-224); a raising `obj.name` read makes `curName` None
(lines 238-241). -/
def chooseNVDAObjectOverlayClasses (obj : UIElement)
    (clsList : List OverlayClass) : List OverlayClass :=
  if !isDotNetUI obj then clsList
  else
    match obj.role with
    | none => clsList
    | some role =>
      if !((ALWAYS_CANDIDATE_ROLES.contains role ||
            (FOCUSABLE_CANDIDATE_ROLES.contains role &&
             (obj.states.getD []).contains State.FOCUSABLE)) ||
           ITEM_ROLES.contains role) then clsList
      else if pyTruthy obj.name &&
              !(ITEM_ROLES.contains role && isClassyName obj.name) then clsList
      else OverlayClass.UnlabeledDotNetNameOverlay :: clsList

def leafNamed (s : String) : UIElement :=
  UIElement.mk (some s) none none none none none none UIElementList.nil

/-- The classy-name criterion exactly as the specification words it: non-empty
after trimming, no space, at least one dot, trimmed length at least 8. -/
def classyNameSpec (s : String) : Bool :=
  decide (pyStrip s ≠ "") && !pyContainsChar (pyStrip s) ' ' &&
    pyContainsChar (pyStrip s) '.' && decide (8 ≤ pyLen (pyStrip s))

/-- The framework test exactly as claim C3 words it: the handle is present and
SOME probed attribute yields a non-empty value whose uppercase form is in the
fixed set, or the window class name starts with the legacy prefix. -/
def frameworkClaimPredicate (obj : UIElement) : Bool :=
  (match obj.uiaElement with
   | some el =>
     (frameworkAttrProbe el).any
       (fun a => pyTruthy a && FRAMEWORK_IDS.contains (pyUpper (a.getD "")))
   | none => false) ||
  pyStartsWith (obj.windowClassName.getD "") "WindowsForms10."

/-- The framework test as the source implements it: only the FIRST truthy
probed attribute is uppercased and tested for membership, or the window class
name starts with the legacy prefix. -/
def frameworkFirstMatchPredicate (obj : UIElement) : Bool :=
  (match obj.uiaElement with
   | some el =>
     match firstTruthyAttr (frameworkAttrProbe el) with
     | some fw => FRAMEWORK_IDS.contains (pyUpper fw)
     | none => false
   | none => false) ||
  pyStartsWith (obj.windowClassName.getD "") "WindowsForms10."

/-- A handle whose first probed attribute is a non-framework id and whose
second is WPF: the probe loop stops at the first truthy value. -/
def elemMixedAttrs : UIElement :=
  UIElement.mk none none none none none
    (some { cachedFrameworkID := some "Qt", cachedFrameworkId := some "WPF",
            CurrentFrameworkId := none, currentFrameworkId := none })
    none UIElementList.nil

def elemWpfLower : UIElement :=
  UIElement.mk none none none none none
    (some { cachedFrameworkID := some "wpf", cachedFrameworkId := none,
            CurrentFrameworkId := none, currentFrameworkId := none })
    none UIElementList.nil

def elemWinFormsLegacy : UIElement :=
  UIElement.mk none none none none none none
    (some "WindowsForms10.EDIT.app.0.378734a") UIElementList.nil

def elemNeither : UIElement :=
  UIElement.mk none none none none none
    (some { cachedFrameworkID := some "QT5", cachedFrameworkId := none,
            CurrentFrameworkId := none, currentFrameworkId := none })
    (some "Chrome_WidgetWin_1") UIElementList.nil

/-- A WinForms list item with a classy original name and one descendant text
node "Item 1". -/
def elemListItemClassy : UIElement :=
  UIElement.mk (some "App.Views.ListItem") none none (some Role.LISTITEM) none
    none (some "WindowsForms10.LIST.app.0.378734a")
    (UIElementList.cons (leafNamed "Item 1") UIElementList.nil)

/-- An unlabeled WinForms button with descendants "Save" and "File". -/
def elemButtonSaveFile : UIElement :=
  UIElement.mk none none none (some Role.BUTTON) none none
    (some "WindowsForms10.BUTTON.app.0.378734a")
    (UIElementList.cons (leafNamed "Save")
      (UIElementList.cons (leafNamed "File") UIElementList.nil))

/-- The registration condition as claim C10 words it: target framework, a
readable role in AlwaysCandidate / FocusableCandidate-with-FOCUSABLE /
ItemRoles, and a current name that is empty or an item-role classy name. -/
def shouldAttachOverlay (obj : UIElement) : Bool :=
  isDotNetUI obj &&
    (match obj.role with
     | none => false
     | some role =>
       ((ALWAYS_CANDIDATE_ROLES.contains role ||
         (FOCUSABLE_CANDIDATE_ROLES.contains role &&
          (obj.states.getD []).contains State.FOCUSABLE)) ||
        ITEM_ROLES.contains role) &&
       (!pyTruthy obj.name || (ITEM_ROLES.contains role && isClassyName obj.name)))

/-- Repeated invocations of the name query on an unchanged element snapshot,
in sequence; the source keeps no module-level mutable state (the only
module-level data are the three role-set constants, never written after
startup), so each invocation is a pure function of the element alone. -/
def repeatedNameQuery (obj : UIElement) (original : Option String) :
    Nat → List (Option String)
  | 0 => []
  | n + 1 =>
    UnlabeledDotNetNameOverlay_get_name obj original ::
      repeatedNameQuery obj original n

/-- Registration-time role eligibility, source lines 226-234: role in
AlwaysCandidate, or in FocusableCandidate with FOCUSABLE set, or in
ItemRoles (an unreadable role is ineligible). -/
def registrationRoleEligible (obj : UIElement) : Bool :=
  match obj.role with
  | none => false
  | some role =>
    (ALWAYS_CANDIDATE_ROLES.contains role ||
     (FOCUSABLE_CANDIDATE_ROLES.contains role &&
      (obj.states.getD []).contains State.FOCUSABLE)) ||
    ITEM_ROLES.contains role

/-- The query-time guard under which `_get_name` collects descendant text
(source line 173 for a truthy original, lines 185-199 for an empty one). -/
def querySynthesisAttempted (obj : UIElement) (original : Option String) : Bool :=
  if pyTruthy original then
    optRoleMem obj.role ITEM_ROLES && isDotNetUI obj && isClassyName original
  else
    match obj.role with
    | none => false
    | some role =>
      isDotNetUI obj &&
        (ALWAYS_CANDIDATE_ROLES.contains role ||
         (FOCUSABLE_CANDIDATE_ROLES.contains role &&
          (obj.states.getD []).contains State.FOCUSABLE))

/-- An unlabeled WinForms LISTITEM with a nameless-but-populated subtree:
registration-time eligible through ItemRoles, yet the query path never
synthesizes for it because its original name is empty. -/
def elemListItemEmptyName : UIElement :=
  UIElement.mk none none none (some Role.LISTITEM) none none
    (some "WindowsForms10.LIST.app.0.378734a")
    (UIElementList.cons (leafNamed "Item 1") UIElementList.nil)

/-- Replace the states attribute of an element snapshot, leaving every other
attribute and the subtree untouched. -/
def UIElement.setStates : UIElement → Option (List State) → UIElement
  | UIElement.mk nm v d r _ u w cs, s => UIElement.mk nm v d r s u w cs

/-- An unlabeled WinForms BUTTON whose states attribute is unreadable
(modelled none) and which has a descendant text node "Save". -/
def elemStatesFailButton : UIElement :=
  UIElement.mk none none none (some Role.BUTTON) none none
    (some "WindowsForms10.BUTTON.app.0.378734a")
    (UIElementList.cons (leafNamed "Save") UIElementList.nil)

/-- Conversion of the element-list constructor chain into a Lean list. -/
def toListUIE : UIElementList → List UIElement
  | UIElementList.nil => []
  | UIElementList.cons n rest => n :: toListUIE rest

/-- Boolean check that every node of the list is a leaf (no grandchildren). -/
def allLeavesB : UIElementList → Bool
  | UIElementList.nil => true
  | UIElementList.cons (UIElement.mk _ _ _ _ _ _ _ cs) rest =>
    (match cs with
     | UIElementList.nil => true
     | UIElementList.cons _ _ => false) && allLeavesB rest

/-- The per-node fragment rule as amended: the node's name is used whenever it
is present and non-empty as a raw string (a whitespace-only name is used and
then discarded by the trim check, contributing nothing); value and then
description are consulted only when the name is absent or the empty string;
the trimmed text is kept iff non-empty. -/
def fragmentRuleAmended (nm v d : Option String) : Option String :=
  match (if pyTruthy nm then nm else if pyTruthy v then v else d) with
  | some s => if pyStrip s = "" then none else some (pyStrip s)
  | none => none

/-- A parent whose only child has a whitespace-only name and value "Hello". -/
def elemWhitespaceNameChild : UIElement :=
  UIElement.mk none none none none none none none
    (UIElementList.cons
      (UIElement.mk (some "   ") (some "Hello") none none none none none
        UIElementList.nil)
      UIElementList.nil)

/-- A parent with two leaf children: a nameless node with value "  OK  " and
a node named "Go". -/
def elemFlatParent : UIElement :=
  UIElement.mk none none none none none none none
    (UIElementList.cons
      (UIElement.mk none (some "  OK  ") none none none none none
        UIElementList.nil)
      (UIElementList.cons (leafNamed "Go") UIElementList.nil))

/-- Keep the nodes of the list and at most k further levels below them,
cutting everything deeper. -/
def pruneListBelow : Nat → UIElementList → UIElementList
  | _, UIElementList.nil => UIElementList.nil
  | k, UIElementList.cons (UIElement.mk nm v d r s u w cs) rest =>
    UIElementList.cons
      (UIElement.mk nm v d r s u w
        (match k with
         | 0 => UIElementList.nil
         | Nat.succ k2 => pruneListBelow k2 cs))
      (pruneListBelow k rest)

/-- Keep the descendants of an element at most k levels below it, cutting
everything deeper. -/
def pruneBelowRoot (k : Nat) (e : UIElement) : UIElement :=
  match k, e with
  | 0, UIElement.mk nm v d r s u w _ =>
    UIElement.mk nm v d r s u w UIElementList.nil
  | Nat.succ k2, UIElement.mk nm v d r s u w cs =>
    UIElement.mk nm v d r s u w (pruneListBelow k2 cs)

def chainNode (s : String) (cs : UIElementList) : UIElement :=
  UIElement.mk (some s) none none none none none none cs

/-- A five-level chain of named descendants below an anonymous root. -/
def deepChain : UIElement :=
  UIElement.mk none none none none none none none
    (UIElementList.cons
      (chainNode "n1"
        (UIElementList.cons
          (chainNode "n2"
            (UIElementList.cons
              (chainNode "n3"
                (UIElementList.cons
                  (chainNode "n4"
                    (UIElementList.cons (chainNode "n5" UIElementList.nil)
                      UIElementList.nil))
                  UIElementList.nil))
              UIElementList.nil))
          UIElementList.nil))
      UIElementList.nil)

/-- C4: looksLikeClassName returns true iff the trimmed string is non-empty,
space-free, contains a dot and has length at least 8; with the specification's
five concrete examples. -/
theorem isClassyName_matches_spec :
    (∀ s, isClassyName (some s) = classyNameSpec s) ∧
    isClassyName (some "OK") = false ∧
    isClassyName (some "File Menu") = false ∧
    isClassyName (some "a.b") = false ∧
    isClassyName (some "Namespace.Sub.Item") = true ∧
    isClassyName (some "component.sub.viewItem") = true := by
  refine ⟨fun s => ?_, by decide, by decide, by decide, by decide, by decide⟩
  unfold isClassyName classyNameSpec
  by_cases h1 : pyStrip s = ""
  · simp [h1]
  · by_cases h2 : pyContainsChar (pyStrip s) ' ' = true
    · simp [h1, h2]
    · by_cases h3 : pyContainsChar (pyStrip s) '.' = true
      · by_cases h4 : 8 ≤ pyLen (pyStrip s) <;> simp [h1, h2, h3, h4]
      · simp [h1, h2, h3]

/-- C3 counterexample: on a handle with cachedFrameworkID="Qt" and
cachedFrameworkId="WPF", the detector returns false (the first non-empty
attribute, "Qt", is taken and "QT" is not in the set), although one of the
known attribute names does yield a member of the set, as the claim reads. -/
theorem isDotNetUI_not_existential_probe :
    isDotNetUI elemMixedAttrs = false ∧
    frameworkClaimPredicate elemMixedAttrs = true := by decide

/-- C3 amended: the detector returns true exactly when the FIRST non-empty
probed framework attribute, uppercased, is in the fixed set, or the window
class name starts with "WindowsForms10."; with the claim's concrete cases
(case-insensitive "wpf" handle, legacy WinForms window class, neither). -/
theorem isDotNetUI_first_match_characterization :
    (∀ obj, isDotNetUI obj = frameworkFirstMatchPredicate obj) ∧
    isDotNetUI elemWpfLower = true ∧
    isDotNetUI elemWinFormsLegacy = true ∧
    isDotNetUI elemNeither = false := by
  refine ⟨fun obj => ?_, by decide, by decide, by decide⟩
  unfold isDotNetUI frameworkFirstMatchPredicate getUIAFrameworkId
  cases h : obj.uiaElement with
  | none =>
    simp
    intro habs
    exact absurd habs (by decide)
  | some el =>
    cases hf : firstTruthyAttr (frameworkAttrProbe el) with
    | none =>
      simp [hf]
      intro habs
      exact absurd habs (by decide)
    | some fw =>
      by_cases hc : FRAMEWORK_IDS.contains (pyUpper fw) = true <;> simp [hf, hc]

/-- C1: when the delegated name is non-empty, the synthesizer joins the
collected descendant fragments with single spaces exactly when the role is an
item role, the framework matches and the name is classy and at least one
fragment is collected; it returns the original name unchanged when no fragment
is collected, and in every other case. -/
theorem name_query_nonempty_original (self : UIElement) (original : Option String)
    (h : pyTruthy original = true) :
    UnlabeledDotNetNameOverlay_get_name self original =
      if optRoleMem self.role ITEM_ROLES && isDotNetUI self && isClassyName original then
        (if gatherTextDefault self = [] then original
         else some (pyJoinSpace (gatherTextDefault self)))
      else original := by
  unfold UnlabeledDotNetNameOverlay_get_name
  rw [h]
  by_cases hc :
      (optRoleMem self.role ITEM_ROLES && isDotNetUI self && isClassyName original) = true
  · by_cases hg : gatherTextDefault self = [] <;> simp [hc, hg]
  · simp [hc]

/-- C1 witness: a WinForms LISTITEM named "App.Views.ListItem" with a
descendant "Item 1" reports "Item 1". -/
theorem name_query_nonempty_original_witness :
    UnlabeledDotNetNameOverlay_get_name elemListItemClassy (some "App.Views.ListItem") =
      some "Item 1" :=
  (name_query_nonempty_original elemListItemClassy (some "App.Views.ListItem")
    (by decide)).trans (by decide)

/-- C2: when the delegated name is empty, the synthesizer returns it unchanged
unless the framework matches and the role is an always-candidate or a
focusable-candidate with FOCUSABLE set, in which case the space-joined
descendant fragments are returned when any were collected (the empty original
otherwise); an unreadable role also returns the empty original. -/
theorem name_query_empty_original (self : UIElement) (original : Option String)
    (h : pyTruthy original = false) :
    UnlabeledDotNetNameOverlay_get_name self original =
      (match self.role with
       | none => original
       | some role =>
         if isDotNetUI self = false then original
         else if ALWAYS_CANDIDATE_ROLES.contains role ||
                 (FOCUSABLE_CANDIDATE_ROLES.contains role &&
                  (self.states.getD []).contains State.FOCUSABLE) then
           (if gatherTextDefault self = [] then original
            else some (pyJoinSpace (gatherTextDefault self)))
         else original) := by
  unfold UnlabeledDotNetNameOverlay_get_name
  rw [h]
  cases hr : self.role with
  | none => simp
  | some role =>
    by_cases hd : isDotNetUI self = true
    · by_cases ha : role ∈ ALWAYS_CANDIDATE_ROLES
      · by_cases hg : gatherTextDefault self = [] <;> simp [hd, ha, hg]
      · by_cases hfc : role ∈ FOCUSABLE_CANDIDATE_ROLES
        · by_cases hfo : State.FOCUSABLE ∈ self.states.getD []
          · by_cases hg : gatherTextDefault self = [] <;> simp [hd, ha, hfc, hfo, hg]
          · simp [hd, ha, hfc, hfo]
        · simp [hd, ha, hfc]
    · simp [Bool.not_eq_true] at hd
      simp [hd]

/-- C2 witness: an unlabeled WinForms BUTTON with descendants "Save" and
"File" reports "Save File". -/
theorem name_query_empty_original_witness :
    UnlabeledDotNetNameOverlay_get_name elemButtonSaveFile none = some "Save File" :=
  (name_query_empty_original elemButtonSaveFile none (by decide)).trans (by decide)

/-- C10: the registration hook either leaves the behavior list entirely
unchanged (ineligible element) or performs exactly one insertion of the
overlay class at index 0, keeping all previously present entries in their
relative order. -/
theorem register_hook_frame_effect (obj : UIElement) (clsList : List OverlayClass) :
    chooseNVDAObjectOverlayClasses obj clsList =
      if shouldAttachOverlay obj
      then OverlayClass.UnlabeledDotNetNameOverlay :: clsList
      else clsList := by
  unfold chooseNVDAObjectOverlayClasses shouldAttachOverlay
  rcases hd : isDotNetUI obj with _ | _
  · simp [hd]
  · cases hr : obj.role with
    | none => simp [hd]
    | some role =>
      by_cases hA : role ∈ ALWAYS_CANDIDATE_ROLES <;>
        by_cases hF : role ∈ FOCUSABLE_CANDIDATE_ROLES <;>
        by_cases hS : State.FOCUSABLE ∈ obj.states.getD [] <;>
        by_cases hI : role ∈ ITEM_ROLES <;>
        rcases hN : pyTruthy obj.name with _ | _ <;>
        rcases hC : isClassyName obj.name with _ | _ <;>
        simp [hd, hA, hF, hS, hI, hN, hC]

/-- C9: the name query is deterministic across repeated invocations: every
query in a sequence of n invocations on an unchanged tree returns the same
value as the first. -/
theorem name_query_deterministic (obj : UIElement) (original : Option String)
    (n : Nat) :
    repeatedNameQuery obj original n =
      List.replicate n (UnlabeledDotNetNameOverlay_get_name obj original) := by
  induction n with
  | zero => rfl
  | succ n ih => simp [repeatedNameQuery, ih, List.replicate]

/-- C7 counterexample: an element with empty name and role LISTITEM (an item
role) is registration-eligible — the hook attaches the overlay — but the
query-time path performs no synthesis: the name query returns the empty
original even though descendant text is available, so the query-time
synthesis set differs from the registration-eligible set. -/
theorem query_vs_registration_eligibility_differ :
    registrationRoleEligible elemListItemEmptyName = true ∧
    isDotNetUI elemListItemEmptyName = true ∧
    chooseNVDAObjectOverlayClasses elemListItemEmptyName [] =
      [OverlayClass.UnlabeledDotNetNameOverlay] ∧
    querySynthesisAttempted elemListItemEmptyName none = false ∧
    UnlabeledDotNetNameOverlay_get_name elemListItemEmptyName none = none ∧
    gatherTextDefault elemListItemEmptyName ≠ [] := by decide

/-- C7 amended: the query-time synthesis set is contained in (not equal to)
the registration-eligible set: whenever the query path attempts synthesis,
the element is registration-role-eligible and in the target framework; and
whenever the query path does not attempt synthesis, the delegated name is
returned unchanged. -/
theorem query_synthesis_subset_registration (obj : UIElement)
    (original : Option String) :
    (querySynthesisAttempted obj original = true →
      registrationRoleEligible obj = true ∧ isDotNetUI obj = true) ∧
    (querySynthesisAttempted obj original = false →
      UnlabeledDotNetNameOverlay_get_name obj original = original) := by
  unfold querySynthesisAttempted registrationRoleEligible
    UnlabeledDotNetNameOverlay_get_name optRoleMem
  rcases ht : pyTruthy original with _ | _
  · simp only [Bool.false_eq_true, if_false]
    cases hr : obj.role with
    | none => simp
    | some role =>
      rcases hd : isDotNetUI obj with _ | _
      · simp [hd]
      · by_cases hA : role ∈ ALWAYS_CANDIDATE_ROLES <;>
          by_cases hF : role ∈ FOCUSABLE_CANDIDATE_ROLES <;>
          by_cases hS : State.FOCUSABLE ∈ obj.states.getD [] <;>
          simp [hd, hA, hF, hS]
  · simp only [if_true]
    cases hr : obj.role with
    | none => simp
    | some role =>
      rcases hd : isDotNetUI obj with _ | _ <;>
        by_cases hI : role ∈ ITEM_ROLES <;>
        rcases hC : isClassyName original with _ | _ <;>
        simp [hd, hI, hC]

/-- C7 amended witness: on the unlabeled WinForms button with descendants,
the query path attempts synthesis, hence the element is also
registration-role-eligible and in the target framework. -/
theorem query_synthesis_subset_registration_witness :
    registrationRoleEligible elemButtonSaveFile = true ∧
    isDotNetUI elemButtonSaveFile = true :=
  (query_synthesis_subset_registration elemButtonSaveFile none).1 (by decide)

/-- C8 counterexample: a failing states read does NOT yield the original-name
path or suppress registration: on an unlabeled BUTTON in the target framework
with states unreadable, the query still synthesizes "Save" (not the empty
original) and the hook still registers the overlay. -/
theorem states_failure_still_synthesizes :
    elemStatesFailButton.states = none ∧
    UnlabeledDotNetNameOverlay_get_name elemStatesFailButton none = some "Save" ∧
    chooseNVDAObjectOverlayClasses elemStatesFailButton [] =
      [OverlayClass.UnlabeledDotNetNameOverlay] := by decide

/-- C8 amended: a failing role read yields the original-name path unchanged at
query time and no registration at registration time; a failing states read is
instead treated as the empty state set — it can only disable the
FocusableCandidate branch, so both entry points behave exactly as they do on
an element whose state set is empty (and, the model being total, neither entry
point can raise). -/
theorem attribute_failure_semantics (obj : UIElement) (original : Option String)
    (clsList : List OverlayClass) :
    (obj.role = none →
      UnlabeledDotNetNameOverlay_get_name obj original = original ∧
      chooseNVDAObjectOverlayClasses obj clsList = clsList) ∧
    UnlabeledDotNetNameOverlay_get_name (obj.setStates none) original =
      UnlabeledDotNetNameOverlay_get_name (obj.setStates (some [])) original ∧
    chooseNVDAObjectOverlayClasses (obj.setStates none) clsList =
      chooseNVDAObjectOverlayClasses (obj.setStates (some [])) clsList := by
  refine ⟨fun hrole => ⟨?_, ?_⟩, ?_, ?_⟩
  · unfold UnlabeledDotNetNameOverlay_get_name optRoleMem
    rcases ht : pyTruthy original with _ | _ <;> simp [hrole]
  · unfold chooseNVDAObjectOverlayClasses
    rcases hd : isDotNetUI obj with _ | _ <;> simp [hrole]
  · cases obj with
    | mk nm v d r s u w cs => rfl
  · cases obj with
    | mk nm v d r s u w cs => rfl

/-- C8 amended witness: a BUTTON element whose role read fails is reported
with its original (empty) name and causes no registration. -/
theorem attribute_failure_semantics_witness :
    UnlabeledDotNetNameOverlay_get_name
      (UIElement.mk none none none none none none
        (some "WindowsForms10.BUTTON.app.0.378734a") UIElementList.nil) none = none ∧
    chooseNVDAObjectOverlayClasses
      (UIElement.mk none none none none none none
        (some "WindowsForms10.BUTTON.app.0.378734a") UIElementList.nil) [] = [] :=
  (attribute_failure_semantics
    (UIElement.mk none none none none none none
      (some "WindowsForms10.BUTTON.app.0.378734a") UIElementList.nil) none []).1 rfl

/-- C6 counterexample: a node whose name is whitespace-only does NOT
contribute its trimmed value: the collector takes the truthy name "   ",
strips it to "", appends nothing and never consults the value, so the
collected list is empty rather than the claimed fallback "Hello". -/
theorem whitespace_name_not_replaced_by_value :
    gatherTextDefault elemWhitespaceNameChild = [] ∧
    gatherTextDefault elemWhitespaceNameChild ≠ ["Hello"] := by decide

/-- On a list of leaf nodes that fits under the item cap, the collector
appends, in document order, exactly the fragments of the nodes. -/
theorem visit_flat_eq_filterMap (maxItems : Nat) (sz : Nat) :
    ∀ (nodes : UIElementList) (depth : Int) (out : List String),
    sizeOf nodes ≤ sz → allLeavesB nodes = true →
    out.length + (toListUIE nodes).length ≤ maxItems →
    visit maxItems nodes depth out =
      out ++ (toListUIE nodes).filterMap
        (fun n => fragmentText n.name n.value n.description) := by
  induction sz with
  | zero => intro nodes _ _ hsz _ _; cases nodes <;> simp at hsz ⊢
  | succ sz ih =>
    intro nodes depth out hsz hleaf hlen
    cases nodes with
    | nil => simp [visit, toListUIE]
    | cons n rest =>
      cases n with
      | mk nm v d r s u w cs =>
        have hcs : cs = UIElementList.nil := by
          unfold allLeavesB at hleaf
          cases cs with
          | nil => rfl
          | cons a b => simp at hleaf
        have hrestleaf : allLeavesB rest = true := by
          unfold allLeavesB at hleaf
          exact (Bool.and_eq_true_iff.mp hleaf).2
        subst hcs
        rw [visit]
        have hlen1 : out.length + (1 + (toListUIE rest).length) ≤ maxItems := by
          simpa [toListUIE, Nat.add_comm] using hlen
        rw [if_neg (by omega)]
        have hinner :
            (if depth - 1 < 0 ∨ maxItems ≤ (appendFragment out nm v d).length
             then appendFragment out nm v d
             else visit maxItems UIElementList.nil (depth - 1) (appendFragment out nm v d)) =
            appendFragment out nm v d := by
          by_cases hg : depth - 1 < 0 ∨ maxItems ≤ (appendFragment out nm v d).length
          · rw [if_pos hg]
          · rw [if_neg hg, visit]
        rw [hinner]
        have hszrest : sizeOf rest ≤ sz := by simp at hsz ⊢; omega
        unfold appendFragment
        simp only [toListUIE, List.filterMap_cons, UIElement.name, UIElement.value,
          UIElement.description]
        cases hf : fragmentText nm v d with
        | none =>
          rw [ih rest depth out hszrest hrestleaf (by simp [toListUIE] at hlen ⊢; omega)]
          rfl
        | some t =>
          rw [ih rest depth (out ++ [t]) hszrest hrestleaf
            (by simp [toListUIE] at hlen ⊢; omega)]
          simp
          rfl

/-- C6 amended: the fragment taken for a visited node is its name whenever
the name attribute is truthy (present and non-empty as a raw string, even if
whitespace-only, in which case nothing is contributed); value and then
description are consulted only for an absent or empty name; a fragment is
appended (trimmed) iff non-empty after trimming; and on a subtree of leaf
children within the item cap the collector returns exactly the per-node
fragments in document order. -/
theorem descendant_fragment_rule :
    (∀ nm v d, fragmentText nm v d = fragmentRuleAmended nm v d) ∧
    ∀ (root : UIElement), allLeavesB root.children = true →
      (toListUIE root.children).length ≤ 10 →
      gatherTextDefault root =
        (toListUIE root.children).filterMap
          (fun n => fragmentText n.name n.value n.description) := by
  constructor
  · intro nm v d
    rfl
  · intro root hleaf hlen
    unfold gatherTextDefault gatherTextFromChildren
    rw [if_neg (by omega)]
    exact visit_flat_eq_filterMap 10 (sizeOf root.children) root.children 3 []
      (Nat.le_refl _) hleaf (by simpa using hlen)

/-- C6 amended witness: on the two-leaf parent the collector returns the
trimmed value of the nameless child and then the name of the second child,
in document order. -/
theorem descendant_fragment_rule_witness :
    gatherTextDefault elemFlatParent = ["OK", "Go"] :=
  (descendant_fragment_rule.2 elemFlatParent (by decide) (by decide)).trans (by decide)

theorem appendFragment_length (out : List String) (nm v d : Option String) :
    (appendFragment out nm v d).length ≤ out.length + 1 := by
  unfold appendFragment
  cases fragmentText nm v d <;> simp

/-- The collector loop never grows the fragment list beyond the item cap. -/
theorem visit_length_le (maxItems : Nat) (sz : Nat) :
    ∀ (nodes : UIElementList) (depth : Int) (out : List String),
    sizeOf nodes ≤ sz → out.length ≤ maxItems →
    (visit maxItems nodes depth out).length ≤ maxItems := by
  induction sz with
  | zero => intro nodes _ _ hsz _; cases nodes <;> simp at hsz
  | succ sz ih =>
    intro nodes depth out hsz h
    cases nodes with
    | nil => simpa [visit] using h
    | cons n rest =>
      cases n with
      | mk nm v d r s u w cs =>
        rw [visit]
        by_cases hfull : maxItems ≤ out.length
        · rw [if_pos hfull]; exact h
        · rw [if_neg hfull]
          have hszrest : sizeOf rest ≤ sz := by simp at hsz ⊢; omega
          have hszcs : sizeOf cs ≤ sz := by simp at hsz ⊢; omega
          have h1 : (appendFragment out nm v d).length ≤ maxItems := by
            have := appendFragment_length out nm v d
            omega
          by_cases hg : depth - 1 < 0 ∨ maxItems ≤ (appendFragment out nm v d).length
          · rw [if_pos hg]
            exact ih rest depth _ hszrest h1
          · rw [if_neg hg]
            exact ih rest depth _ hszrest (ih cs (depth - 1) _ hszcs h1)

/-- Nodes strictly below the depth budget never influence the collector: the
loop gives the same result on the tree pruned to depth+1 levels. -/
theorem visit_prune (maxItems : Nat) (sz : Nat) :
    ∀ (nodes : UIElementList) (depth : Int) (out : List String),
    sizeOf nodes ≤ sz → 0 ≤ depth →
    visit maxItems (pruneListBelow depth.toNat nodes) depth out =
      visit maxItems nodes depth out := by
  induction sz with
  | zero => intro nodes _ _ hsz _; cases nodes <;> simp at hsz ⊢
  | succ sz ih =>
    intro nodes depth out hsz hd
    cases nodes with
    | nil => simp [pruneListBelow]
    | cons n rest =>
      cases n with
      | mk nm v d r s u w cs =>
        simp only [pruneListBelow]
        rw [visit, visit]
        by_cases hfull : maxItems ≤ out.length
        · rw [if_pos hfull, if_pos hfull]
        · rw [if_neg hfull, if_neg hfull]
          have hszrest : sizeOf rest ≤ sz := by simp at hsz ⊢; omega
          have hszcs : sizeOf cs ≤ sz := by simp at hsz ⊢; omega
          by_cases hg : depth - 1 < 0 ∨ maxItems ≤ (appendFragment out nm v d).length
          · rw [if_pos hg, if_pos hg]
            exact ih rest depth _ hszrest hd
          · rw [if_neg hg, if_neg hg]
            push_neg at hg
            have hd1 : (0 : Int) ≤ depth - 1 := by omega
            have hk : depth.toNat = (depth - 1).toNat + 1 := by omega
            rw [hk]
            rw [ih cs (depth - 1) (appendFragment out nm v d) hszcs hd1]
            rw [← hk]
            rw [ih rest depth _ hszrest hd]

/-- C5 counterexample: with maxDepth=3 the collector DOES visit a descendant
4 levels below the starting element: on a 5-level chain it returns the
fragment "n4" of the level-4 node, and pruning the tree at exactly maxDepth
levels changes the result, so the claimed depth bound fails. -/
theorem collector_visits_below_maxDepth :
    gatherTextFromChildren deepChain 3 10 = ["n1", "n2", "n3", "n4"] ∧
    gatherTextFromChildren (pruneBelowRoot 3 deepChain) 3 10 = ["n1", "n2", "n3"] ∧
    gatherTextFromChildren deepChain 3 10 ≠
      gatherTextFromChildren (pruneBelowRoot 3 deepChain) 3 10 := by decide

/-- C5 amended: on every input tree the collector returns at most maxItems
fragments, and no descendant more than maxDepth+1 levels below the starting
element is ever visited: the result is unchanged when the tree is pruned to
maxDepth+1 levels (the off-by-one comes from the children being processed at
budget maxDepth and recursion stopping only when the decremented budget turns
negative). -/
theorem collector_bounds (e : UIElement) (maxDepth : Int) (maxItems : Nat) :
    (gatherTextFromChildren e maxDepth maxItems).length ≤ maxItems ∧
    gatherTextFromChildren e maxDepth maxItems =
      gatherTextFromChildren (pruneBelowRoot (maxDepth.toNat + 1) e)
        maxDepth maxItems := by
  constructor
  · unfold gatherTextFromChildren
    by_cases hguard : maxDepth < 0 ∨ maxItems ≤ 0
    · rw [if_pos hguard]; simp
    · rw [if_neg hguard]
      exact visit_length_le maxItems (sizeOf e.children) e.children maxDepth []
        (Nat.le_refl _) (by simp)
  · unfold gatherTextFromChildren
    by_cases hguard : maxDepth < 0 ∨ maxItems ≤ 0
    · rw [if_pos hguard, if_pos hguard]
    · rw [if_neg hguard, if_neg hguard]
      push_neg at hguard
      have hd : (0 : Int) ≤ maxDepth := by omega
      have hch : (pruneBelowRoot (maxDepth.toNat + 1) e).children =
          pruneListBelow maxDepth.toNat e.children := by
        cases e with
        | mk nm v d r s u w cs => rfl
      rw [hch]
      exact (visit_prune maxItems (sizeOf e.children) e.children maxDepth []
        (Nat.le_refl _) hd).symm
